import Mathlib

/-!
Verification of the product-matching engine of the Image-Analyzer backend
(`BACKEND/app/services/product_service.py`, with the data model from
`BACKEND/app/models/product.py` and connection acquisition from
`BACKEND/app/config/database.py`).

The MySQL catalog is embedded as explicit data (a list of product rows plus a
product-tag association list); each SQL query issued by the service is embedded
by its list semantics: `WHERE` becomes `List.filter`, `ORDER BY` becomes a
stable insertion sort with the corresponding lexicographic comparator
(MySQL sorts `NULL` below every value, so `DESC` places `NULL` last),
`LIMIT`/`OFFSET` become `take`/`drop`, `LOWER` becomes character-wise
lowercasing, and `LIKE` with a wrapped pattern becomes substring containment.
`Decimal`/float numerics are embedded as `ℚ`.  A strategy invocation that can
raise is embedded as an `Except`-valued function; the connection generator is
embedded as an `Except String Catalog` argument.
-/

/-- Embeds SQL `LOWER(s)` / Python `str.lower()` (character-wise lowercasing). -/
def sqlLower (s : String) : String := ⟨s.data.map Char.toLower⟩

/-- Embeds SQL `s LIKE concat(percent, pat, percent)`: substring containment. -/
def sqlContains (s pat : String) : Bool := decide (pat.data <:+: s.data)

/-- Python truthiness of an optional string (`None` and the empty string are falsy). -/
def truthyOpt (o : Option String) : Bool := !(o.getD "").isEmpty

/-- Python truthiness of an optional numeric (`None` and zero are falsy). -/
def truthyQ : Option ℚ → Bool
  | none => false
  | some x => decide (x ≠ 0)

/-- Embeds the `Product` row model of `app/models/product.py` (a catalog row as
fetched by the service; `created_at`/`updated_at`/`image_url` are never read by
the engine and are omitted). -/
structure Product where
  id : ℕ
  name : String
  description : Option String
  category : String
  price : ℚ
  brand : String
  rating : Option ℚ
  review_count : Option ℕ
  in_stock : Bool
deriving DecidableEq, Repr

/-- Embeds the MySQL store consumed through `get_db_connection`: the `products`
table plus the `product_tags` association table (product id, tag). -/
structure Catalog where
  products : List Product
  product_tags : List (ℕ × String)
deriving DecidableEq, Repr

/-- Embeds `ObjectIdentification` from `app/models/product.py` (fields the
matching engine never reads are omitted). -/
structure ObjectIdentification where
  identified_object : String
  category : Option String := none
  brand : Option String := none
  confidence : ℚ := 1
  search_terms : List String := []
deriving DecidableEq, Repr

/-- Embeds `ProductWithSimilarity`: a product annotated with a score and reason. -/
structure ProductWithSimilarity extends Product where
  similarity_score : ℚ
  match_reason : String
deriving DecidableEq, Repr

/-- Stable insertion into a sorted list, auxiliary for `List.orderBy`. -/
def List.insertBy (le : α → α → Bool) (a : α) : List α → List α
  | [] => [a]
  | b :: bs => if le a b then a :: b :: bs else b :: List.insertBy le a bs

/-- Embeds SQL `ORDER BY` as a stable insertion sort with comparator `le`. -/
def List.orderBy (le : α → α → Bool) : List α → List α
  | [] => []
  | a :: as => List.insertBy le a (List.orderBy le as)

/-- Sort key for one `Option ℚ` column sorted `DESC` (MySQL places `NULL` last
under `DESC`): lexicographically, non-null rows (flag 0) precede null rows
(flag 1), and among non-null rows the negated value sorts ascending. -/
def optQDescKey : Option ℚ → Lex (ℕ × ℚ)
  | some x => toLex (0, -x)
  | none => toLex (1, 0)

/-- Sort key for one `Option ℕ` column sorted `DESC`, `NULL` last. -/
def optNDescKey : Option ℕ → Lex (ℕ × ℤ)
  | some n => toLex (0, -(n : ℤ))
  | none => toLex (1, 0)

/-- Sort key embedding `ORDER BY rating DESC, review_count DESC`. -/
def ratingReviewKey (p : Product) : Lex (Lex (ℕ × ℚ) × Lex (ℕ × ℤ)) :=
  toLex (optQDescKey p.rating, optNDescKey p.review_count)

/-- Comparator embedding `ORDER BY rating DESC, review_count DESC`. -/
def ratingReviewLe (p q : Product) : Bool :=
  decide (ratingReviewKey p ≤ ratingReviewKey q)

/-- Embeds the `brand_bonus` CASE expression of strategy 2: `0.2` when the
row's brand equals the identification's brand (case-insensitively, with a
missing brand sent as the empty string), else `0`. -/
def brandBonus (ident : ObjectIdentification) (p : Product) : ℚ :=
  if sqlLower p.brand = sqlLower (ident.brand.getD "") then 0.2 else 0

/-- Comparator embedding `ORDER BY brand_bonus DESC, rating DESC, review_count DESC`. -/
def brandBonusLe (ident : ObjectIdentification) (p q : Product) : Bool :=
  decide ((toLex (-(brandBonus ident p), ratingReviewKey p) : Lex (ℚ × _)) ≤
    toLex (-(brandBonus ident q), ratingReviewKey q))

/-- Embeds `ProductService._exact_brand_category_search` (strategy 1): all
in-stock rows whose brand and category equal the identification's
case-insensitively, ordered by rating then review count, capped at `limit`,
each scored `0.95`. -/
def exact_brand_category_search (cat : Catalog) (ident : ObjectIdentification)
    (limit : ℕ) : List ProductWithSimilarity :=
  if !truthyOpt ident.brand || !truthyOpt ident.category then []
  else
    let b := ident.brand.getD ""
    let c := ident.category.getD ""
    let rows := ((cat.products.filter (fun p =>
        (sqlLower p.brand == sqlLower b) && (sqlLower p.category == sqlLower c) &&
        p.in_stock)).orderBy ratingReviewLe).take limit
    rows.map (fun p =>
      { toProduct := p
        similarity_score := 0.95
        match_reason := "Exact brand (" ++ b ++ ") and category match" })

/-- Embeds one keyword disjunct of strategy 2: `LOWER(name) LIKE pat OR
LOWER(description) LIKE pat` with `pat` the lowered term wrapped in wildcards
(`NULL LIKE pat` is not satisfied). -/
def nameDescrMatch (p : Product) (t : String) : Bool :=
  sqlContains (sqlLower p.name) (sqlLower t) ||
    (match p.description with
     | some d => sqlContains (sqlLower d) (sqlLower t)
     | none => false)

/-- Embeds `ProductService._category_keyword_search` (strategy 2): in-stock
rows in the identification's category whose name or description contains one of
the first three search terms, ordered by brand bonus, rating, review count,
capped at `limit`, scored `min (0.8 + bonus) 1`. -/
def category_keyword_search (cat : Catalog) (ident : ObjectIdentification)
    (limit : ℕ) : List ProductWithSimilarity :=
  if !truthyOpt ident.category || ident.search_terms.isEmpty then []
  else
    let c := ident.category.getD ""
    let terms := ident.search_terms.take 3
    let rows := ((cat.products.filter (fun p =>
        (sqlLower p.category == sqlLower c) &&
        (terms.any (nameDescrMatch p)) && p.in_stock)).orderBy
          (brandBonusLe ident)).take limit
    rows.map (fun p =>
      { toProduct := p
        similarity_score := min (0.8 + brandBonus ident p) 1
        match_reason := "Category and keyword match" })

/-- Embeds one keyword disjunct of strategy 3: name, description or brand
contains the lowered term. -/
def nameDescrBrandMatch (p : Product) (t : String) : Bool :=
  nameDescrMatch p t || sqlContains (sqlLower p.brand) (sqlLower t)

/-- Embeds `ProductService._keyword_search` (strategy 3): in-stock rows whose
name, description or brand contains one of the first three search terms,
ordered by rating then review count, capped at `limit`, each scored `0.6`. -/
def keyword_search (cat : Catalog) (ident : ObjectIdentification)
    (limit : ℕ) : List ProductWithSimilarity :=
  if ident.search_terms.isEmpty then []
  else
    let terms := ident.search_terms.take 3
    let rows := ((cat.products.filter (fun p =>
        (terms.any (nameDescrBrandMatch p)) && p.in_stock)).orderBy
          ratingReviewLe).take limit
    rows.map (fun p =>
      { toProduct := p
        similarity_score := 0.6
        match_reason := "Keyword search match" })

/-- Embeds the `COUNT(pt.tag)` aggregate of strategy 4: how many association
rows of the product carry a tag whose lowering is among the first three lowered
search terms. -/
def tag_matches (cat : Catalog) (ident : ObjectIdentification) (p : Product) : ℕ :=
  (cat.product_tags.filter (fun pt =>
    (pt.1 == p.id) && ((ident.search_terms.take 3).map sqlLower).contains (sqlLower pt.2))).length

/-- Comparator embedding `ORDER BY tag_matches DESC, rating DESC, review_count DESC`. -/
def tagOrderLe (cat : Catalog) (ident : ObjectIdentification) (p q : Product) : Bool :=
  decide ((toLex (-(tag_matches cat ident p : ℤ), ratingReviewKey p) : Lex (ℤ × _)) ≤
    toLex (-(tag_matches cat ident q : ℤ), ratingReviewKey q))

/-- Embeds the grouped, ordered, limited row set of strategy 4's query: in-stock
products joined to at least one matching tag row, ordered by match count,
rating, review count, capped at `limit`. -/
def tag_rows (cat : Catalog) (ident : ObjectIdentification) (limit : ℕ) : List Product :=
  ((cat.products.filter (fun p =>
      (tag_matches cat ident p != 0) && p.in_stock)).orderBy
        (tagOrderLe cat ident)).take limit

/-- Embeds `max_tags` of strategy 4: the Python `max` of the fetched rows'
match counts, `1` when no row was fetched. -/
def max_tags (cat : Catalog) (ident : ObjectIdentification) (limit : ℕ) : ℕ :=
  match tag_rows cat ident limit with
  | [] => 1
  | r :: rs => (rs.map (tag_matches cat ident)).foldl Nat.max (tag_matches cat ident r)

/-- Embeds `ProductService._tag_based_search` (strategy 4): the grouped rows,
each scored `max 0.2 ((tag_matches / max_tags) * 0.6)` with the match count in
the reason. -/
def tag_based_search (cat : Catalog) (ident : ObjectIdentification)
    (limit : ℕ) : List ProductWithSimilarity :=
  if ident.search_terms.isEmpty then []
  else
    (tag_rows cat ident limit).map (fun p =>
      { toProduct := p
        similarity_score :=
          max 0.2 (((tag_matches cat ident p : ℚ) / (max_tags cat ident limit : ℚ)) * 0.6)
        match_reason :=
          "Tag-based match (" ++ toString (tag_matches cat ident p) ++ " matching tags)" })

/-- A search strategy as the orchestrator sees it: it may raise (embedded as
`Except.error`) or return a candidate list. -/
abbrev Strategy : Type :=
  Catalog → ObjectIdentification → ℕ → Except String (List ProductWithSimilarity)

/-- Lifts a non-raising strategy into the `Except`-valued strategy type. -/
def liftStrategy
    (f : Catalog → ObjectIdentification → ℕ → List ProductWithSimilarity) : Strategy :=
  fun cat ident limit => .ok (f cat ident limit)

/-- Embeds the response envelope assembled by
`find_similar_products_by_identification` (wall-clock `search_time` and the
echoed identification are dropped; `strategy_used` is absent on the
`not_found` and `error` envelopes, embedded as `none`). -/
structure SearchResult where
  status : String
  message : String
  similar_products : List ProductWithSimilarity
  total_found : ℕ
  strategy_used : Option ℕ
deriving DecidableEq, Repr

/-- The `found` envelope built when strategy `idx` (1-based) returns `ps`. -/
def foundResult (ps : List ProductWithSimilarity) (idx : ℕ) : SearchResult :=
  { status := "found"
    message := "Found " ++ toString ps.length ++ " similar products"
    similar_products := ps
    total_found := ps.length
    strategy_used := some idx }

/-- The `not_found` envelope built when every strategy returned no candidate. -/
def notFoundResult : SearchResult :=
  { status := "not_found"
    message := "This product is not available in the database"
    similar_products := []
    total_found := 0
    strategy_used := none }

/-- The `error` envelope built by the outer exception handler. -/
def errorResult (e : String) : SearchResult :=
  { status := "error"
    message := "Database error: " ++ e
    similar_products := []
    total_found := 0
    strategy_used := none }

/-- Embeds the strategy loop of `find_similar_products_by_identification`:
each strategy is tried in order with its 1-based index; a raising strategy is
caught and skipped, a non-empty result stops the loop with a `found` envelope,
and exhaustion yields the `not_found` envelope. -/
def runStrategies (cat : Catalog) (ident : ObjectIdentification) (limit : ℕ) :
    List Strategy → ℕ → SearchResult
  | [], _ => notFoundResult
  | s :: rest, idx =>
    match s cat ident limit with
    | .error _ => runStrategies cat ident limit rest (idx + 1)
    | .ok ps => if ps.isEmpty then runStrategies cat ident limit rest (idx + 1)
                else foundResult ps idx

/-- Embeds `ProductService.__init__`: the fixed, ordered strategy list. -/
def search_strategies : List Strategy :=
  [liftStrategy exact_brand_category_search, liftStrategy category_keyword_search,
   liftStrategy keyword_search, liftStrategy tag_based_search]

/-- Embeds `ProductService.find_similar_products_by_identification` for a
service whose strategy list is `strategies`: acquiring the connection may fail
(`Except.error`), in which case the outer handler returns the `error`
envelope; otherwise the strategy loop runs on the connected catalog. -/
def find_similar_products_by_identification (strategies : List Strategy)
    (conn : Except String Catalog) (ident : ObjectIdentification) (limit : ℕ) :
    SearchResult :=
  match conn with
  | .error e => errorResult e
  | .ok cat => runStrategies cat ident limit strategies 1

/-- The search operation of the actual service instance (the four concrete
strategies of `ProductService.__init__`, in their fixed order). -/
def product_search (conn : Except String Catalog) (ident : ObjectIdentification)
    (limit : ℕ) : SearchResult :=
  find_similar_products_by_identification search_strategies conn ident limit

/-- Embeds `ProductSearchFilter` from `app/models/product.py`, with its
declared defaults. -/
structure ProductSearchFilter where
  category : Option String := none
  brand : Option String := none
  min_price : Option ℚ := none
  max_price : Option ℚ := none
  min_rating : Option ℚ := none
  in_stock_only : Bool := true
  limit : ℕ := 20
  offset : ℕ := 0
deriving DecidableEq, Repr

/-- The pydantic field constraints of `ProductSearchFilter` (`limit` in
`[1, 100]`; `offset ≥ 0` holds by the `ℕ` embedding). -/
def ProductSearchFilter.Valid (f : ProductSearchFilter) : Prop :=
  1 ≤ f.limit ∧ f.limit ≤ 100

/-- Embeds the `WHERE` clause assembled by `get_all_products`: each constraint
is appended only when the corresponding field is Python-truthy, and a `NULL`
rating never satisfies `rating >= x`. -/
def listing_pred (f : ProductSearchFilter) (p : Product) : Bool :=
  (!truthyOpt f.category || (sqlLower p.category == sqlLower (f.category.getD ""))) &&
  (!truthyOpt f.brand || (sqlLower p.brand == sqlLower (f.brand.getD ""))) &&
  (!truthyQ f.min_price || decide (f.min_price.getD 0 ≤ p.price)) &&
  (!truthyQ f.max_price || decide (p.price ≤ f.max_price.getD 0)) &&
  (!truthyQ f.min_rating ||
    (match p.rating with
     | some r => decide (f.min_rating.getD 0 ≤ r)
     | none => false)) &&
  (!f.in_stock_only || p.in_stock)

/-- Sort key embedding `ORDER BY rating DESC, review_count DESC, price ASC`. -/
def listingKey (p : Product) : Lex (Lex (Lex (ℕ × ℚ) × Lex (ℕ × ℤ)) × ℚ) :=
  toLex (ratingReviewKey p, p.price)

/-- Comparator embedding `ORDER BY rating DESC, review_count DESC, price ASC`. -/
def listingLe (p q : Product) : Bool := decide (listingKey p ≤ listingKey q)

/-- Embeds `ProductService.get_all_products`: on a connection failure the
handler returns `[]`; otherwise the filtered rows are ordered and paginated
with `LIMIT f.limit OFFSET f.offset`. -/
def get_all_products (conn : Except String Catalog) (f : ProductSearchFilter) :
    List Product :=
  match conn with
  | .error _ => []
  | .ok cat =>
    ((((cat.products.filter (listing_pred f)).orderBy listingLe).drop f.offset).take f.limit)

/-- Comparator embedding `ORDER BY category` (ascending string order). -/
def stringLe (a b : String) : Bool := decide (a ≤ b)

/-- Embeds `ProductService.get_categories`: distinct category values in
ascending order; `[]` on a connection failure. -/
def get_categories (conn : Except String Catalog) : List String :=
  match conn with
  | .error _ => []
  | .ok cat => ((cat.products.map (fun p => p.category)).eraseDups).orderBy stringLe

/-- Embeds the statistics record returned by `get_database_stats`. -/
structure DatabaseStats where
  total_products : ℕ
  total_categories : ℕ
  total_brands : ℕ
  average_price : ℚ
  average_rating : ℚ
  in_stock_products : ℕ
deriving DecidableEq, Repr

/-- The all-zero statistics record of the exception handler. -/
def zeroStats : DatabaseStats :=
  { total_products := 0, total_categories := 0, total_brands := 0,
    average_price := 0, average_rating := 0, in_stock_products := 0 }

/-- Embeds `ProductService.get_database_stats`: aggregate counts and averages
(SQL `AVG` ignores `NULL` ratings and is `NULL` on an empty input, which the
service's truthiness guard turns into `0`); the all-zero record on a
connection failure. -/
def get_database_stats (conn : Except String Catalog) : DatabaseStats :=
  match conn with
  | .error _ => zeroStats
  | .ok cat =>
    let ps := cat.products
    let ratings := ps.filterMap (fun p => p.rating)
    { total_products := ps.length
      total_categories := ((ps.map (fun p => p.category)).eraseDups).length
      total_brands := ((ps.map (fun p => p.brand)).eraseDups).length
      average_price :=
        if ps.isEmpty then 0 else ((ps.map (fun p => p.price)).sum / (ps.length : ℚ))
      average_rating :=
        if ratings.isEmpty then 0 else (ratings.sum / (ratings.length : ℚ))
      in_stock_products := ps.countP (fun p => p.in_stock) }

/-- The candidate lists produced by the four concrete strategies, in the fixed
chain order of `ProductService.__init__`. -/
def strategy_outputs (cat : Catalog) (ident : ObjectIdentification) (limit : ℕ) :
    List (List ProductWithSimilarity) :=
  [exact_brand_category_search cat ident limit,
   category_keyword_search cat ident limit,
   keyword_search cat ident limit,
   tag_based_search cat ident limit]

/-- First position (1-based when started at 1) holding a non-empty candidate
list, together with that list. -/
def firstHit : List (List ProductWithSimilarity) → ℕ →
    Option (ℕ × List ProductWithSimilarity)
  | [], _ => none
  | ps :: rest, i => if ps.isEmpty then firstHit rest (i + 1) else some (i, ps)

/-- The first of the four strategies to yield one or more candidates, with its
1-based index and its candidate list. -/
def first_successful_strategy (cat : Catalog) (ident : ObjectIdentification)
    (limit : ℕ) : Option (ℕ × List ProductWithSimilarity) :=
  firstHit (strategy_outputs cat ident limit) 1

/-- Strict precedence of optional rationals under `DESC` with `NULL` last. -/
def OptQDescBefore (a b : Option ℚ) : Prop :=
  ∃ x, a = some x ∧ (b = none ∨ ∃ y, b = some y ∧ y < x)

/-- Strict precedence of optional naturals under `DESC` with `NULL` last. -/
def OptNDescBefore (a b : Option ℕ) : Prop :=
  ∃ x, a = some x ∧ (b = none ∨ ∃ y, b = some y ∧ y < x)

/-- The row order promised for the listing operation: rating descending with
`NULL` last, then review count descending with `NULL` last, then price
ascending. -/
def ListingOrder (p q : Product) : Prop :=
  OptQDescBefore p.rating q.rating ∨
    (p.rating = q.rating ∧
      (OptNDescBefore p.review_count q.review_count ∨
        (p.review_count = q.review_count ∧ p.price ≤ q.price)))

/-- The in-stock Acme Electronics product of the end-to-end example. -/
def acmeProduct : Product :=
  { id := 1, name := "Acme Widget", description := none, category := "Electronics",
    price := 10, brand := "Acme", rating := some 4.5, review_count := some 100,
    in_stock := true }

/-- The one-product catalog of the end-to-end example. -/
def exCatalog : Catalog := { products := [acmeProduct], product_tags := [] }

/-- The identification record of the end-to-end example. -/
def exIdent : ObjectIdentification :=
  { identified_object := "electronics device", category := some "electronics",
    brand := some "acme", confidence := 0.9, search_terms := [] }

/-- The candidate that strategy 1 produces in the end-to-end example. -/
def exCand : ProductWithSimilarity :=
  { toProduct := acmeProduct, similarity_score := 0.95,
    match_reason := "Exact brand (acme) and category match" }

/-- The empty catalog. -/
def emptyCatalog : Catalog := { products := [], product_tags := [] }

/-- An identification with no category, no brand and no search terms. -/
def c7ident : ObjectIdentification := { identified_object := "mystery" }

/-- A strategy whose invocation raises. -/
def failingStrategy : Strategy := fun _ _ _ => .error "strategy boom"

/-- A strategy that always returns the example candidate. -/
def constStrategy : Strategy := fun _ _ _ => .ok [exCand]

/-- Fixture product for the strategy 2 scoring witness. -/
def c5prod : Product :=
  { id := 3, name := "Acme Phone X", description := none, category := "Electronics",
    price := 200, brand := "Acme", rating := some 4, review_count := some 20,
    in_stock := true }

/-- Fixture catalog for the strategy 2 scoring witness. -/
def c5cat : Catalog := { products := [c5prod], product_tags := [] }

/-- Fixture identification for the strategy 2 scoring witness. -/
def c5ident : ObjectIdentification :=
  { identified_object := "phone", category := some "electronics",
    brand := some "acme", search_terms := ["phone"] }

/-- The candidate strategy 2 produces on the `c5` fixture. -/
def c5cand : ProductWithSimilarity :=
  { toProduct := c5prod,
    similarity_score := min (0.8 + brandBonus c5ident c5prod) 1,
    match_reason := "Category and keyword match" }

/-- Fixture product for the strategy 4 scoring witness. -/
def c6prod : Product :=
  { id := 7, name := "Trail Tent", description := none,
    category := "Sports & Outdoors", price := 30, brand := "Peak",
    rating := some 4, review_count := some 5, in_stock := true }

/-- Fixture catalog with one tag association for the strategy 4 witness. -/
def c6cat : Catalog := { products := [c6prod], product_tags := [(7, "camping")] }

/-- Fixture identification for the strategy 4 scoring witness. -/
def c6ident : ObjectIdentification :=
  { identified_object := "tent", search_terms := ["camping"] }

/-- The candidate strategy 4 produces on the `c6` fixture. -/
def c6cand : ProductWithSimilarity :=
  { toProduct := c6prod,
    similarity_score :=
      max 0.2 (((tag_matches c6cat c6ident c6prod : ℚ) /
        (max_tags c6cat c6ident 5 : ℚ)) * 0.6),
    match_reason :=
      "Tag-based match (" ++ toString (tag_matches c6cat c6ident c6prod) ++
        " matching tags)" }

/-- Fixture product for the listing counterexample and witness: in stock with a
strictly positive price. -/
def cexProduct : Product :=
  { id := 2, name := "Gadget", description := none, category := "Electronics",
    price := 5, brand := "Brandy", rating := some 4, review_count := some 10,
    in_stock := true }

/-- A filter whose `max_price` is provided but zero. -/
def cexFilter : ProductSearchFilter := { max_price := some 0 }

/-- Fixture catalog for the listing claims. -/
def c8cat : Catalog := { products := [cexProduct], product_tags := [] }

/-- An honest (non-zero) numeric filter for the listing witness. -/
def c8filter : ProductSearchFilter :=
  { min_price := some 1, max_price := some 20, in_stock_only := true,
    limit := 10, offset := 0 }

theorem List.mem_insertBy {le : α → α → Bool} {a b : α} {l : List α} :
    b ∈ l.insertBy le a ↔ b = a ∨ b ∈ l := by
  induction l with
  | nil => simp [List.insertBy]
  | cons c cs ih =>
    simp only [List.insertBy]
    split
    · simp [List.mem_cons]
    · simp only [List.mem_cons, ih]
      tauto

theorem List.mem_orderBy {le : α → α → Bool} {a : α} {l : List α} :
    a ∈ l.orderBy le ↔ a ∈ l := by
  induction l with
  | nil => simp [List.orderBy]
  | cons c cs ih => simp [List.orderBy, List.mem_insertBy, ih]

theorem List.length_insertBy {le : α → α → Bool} {a : α} {l : List α} :
    (l.insertBy le a).length = l.length + 1 := by
  induction l with
  | nil => simp [List.insertBy]
  | cons c cs ih =>
    simp only [List.insertBy]
    split <;> simp [ih]

theorem List.length_orderBy {le : α → α → Bool} {l : List α} :
    (l.orderBy le).length = l.length := by
  induction l with
  | nil => simp [List.orderBy]
  | cons c cs ih => simp [List.orderBy, List.length_insertBy, ih]

theorem List.pairwise_insertBy {le : α → α → Bool}
    (total : ∀ x y, le x y = true ∨ le y x = true)
    (trans : ∀ x y z, le x y = true → le y z = true → le x z = true)
    {a : α} {l : List α} (h : l.Pairwise (fun x y => le x y = true)) :
    (l.insertBy le a).Pairwise (fun x y => le x y = true) := by
  induction l with
  | nil => simp [List.insertBy]
  | cons b bs ih =>
    simp only [List.insertBy]
    rcases List.pairwise_cons.mp h with ⟨hb, hbs⟩
    split
    · rename_i hab
      refine List.pairwise_cons.mpr ⟨?_, h⟩
      intro x hx
      rcases List.mem_cons.mp hx with rfl | hx
      · exact hab
      · exact trans a b x hab (hb x hx)
    · rename_i hab
      have hba : le b a = true := by
        rcases total a b with hh | hh
        · exact absurd hh hab
        · exact hh
      refine List.pairwise_cons.mpr ⟨?_, ih hbs⟩
      intro x hx
      rcases List.mem_insertBy.mp hx with rfl | hx
      · exact hba
      · exact hb x hx

theorem List.pairwise_orderBy {le : α → α → Bool}
    (total : ∀ x y, le x y = true ∨ le y x = true)
    (trans : ∀ x y z, le x y = true → le y z = true → le x z = true)
    (l : List α) :
    (l.orderBy le).Pairwise (fun x y => le x y = true) := by
  induction l with
  | nil => simp [List.orderBy]
  | cons a as ih => exact List.pairwise_insertBy total trans ih

/-- C3: if acquiring the catalog-store connection fails, the search returns the
"error" envelope with the message "Database error: " followed by the fault
description, an empty candidate list and total_found = 0, and the result is the
same whatever the strategy list is (no strategy is invoked); the failure does
not raise past the orchestrator. -/
theorem C3_store_unreachable (strategies : List Strategy)
    (ident : ObjectIdentification) (limit : ℕ) (e : String) :
    find_similar_products_by_identification strategies (.error e) ident limit =
      errorResult e ∧
    (errorResult e).status = "error" ∧
    (errorResult e).message = "Database error: " ++ e ∧
    (errorResult e).similar_products = [] ∧
    (errorResult e).total_found = 0 ∧
    product_search (.error e) ident limit =
      find_similar_products_by_identification strategies (.error e) ident limit :=
  ⟨rfl, rfl, rfl, rfl, rfl, rfl⟩

/-- C7: a strategy whose required identification fields are missing returns an
empty candidate list, for every catalog (so in particular without consulting
the store): strategy 1 when brand or category is unset or empty, strategy 2
when category is unset or the search terms are empty, strategies 3 and 4 when
the search terms are empty. -/
theorem C7_inapplicable_strategies (cat : Catalog) (ident : ObjectIdentification)
    (limit : ℕ) :
    ((ident.brand.getD "" = "" ∨ ident.category.getD "" = "") →
      exact_brand_category_search cat ident limit = []) ∧
    ((ident.category = none ∨ ident.search_terms = []) →
      category_keyword_search cat ident limit = []) ∧
    (ident.search_terms = [] → keyword_search cat ident limit = []) ∧
    (ident.search_terms = [] → tag_based_search cat ident limit = []) := by
  have hfalse : ∀ o : Option String, o.getD "" = "" → truthyOpt o = false := by
    intro o ho
    simp [truthyOpt, ho, String.isEmpty_iff]
  refine ⟨fun h => ?_, fun h => ?_, fun h => ?_, fun h => ?_⟩
  · rcases h with h | h <;> simp [exact_brand_category_search, hfalse _ h]
  · rcases h with h | h
    · have : ident.category.getD "" = "" := by simp [h]
      simp [category_keyword_search, hfalse _ this]
    · simp [category_keyword_search, h]
  · simp [keyword_search, h]
  · simp [tag_based_search, h]

/-- Witness for C7 on a concrete identification lacking every field. -/
theorem C7_witness :
    exact_brand_category_search exCatalog c7ident 20 = [] ∧
    category_keyword_search exCatalog c7ident 20 = [] ∧
    keyword_search exCatalog c7ident 20 = [] ∧
    tag_based_search exCatalog c7ident 20 = [] := by
  obtain ⟨h1, h2, h3, h4⟩ := C7_inapplicable_strategies exCatalog c7ident 20
  exact ⟨h1 (Or.inl rfl), h2 (Or.inl rfl), h3 rfl, h4 rfl⟩

/-- C9: a numeric listing filter provided as zero (min_price, max_price or
min_rating) behaves exactly as if the filter were absent. -/
theorem C9_zero_numeric_filters_ignored (conn : Except String Catalog)
    (f : ProductSearchFilter) :
    get_all_products conn { f with min_price := some 0 } =
      get_all_products conn { f with min_price := none } ∧
    get_all_products conn { f with max_price := some 0 } =
      get_all_products conn { f with max_price := none } ∧
    get_all_products conn { f with min_rating := some 0 } =
      get_all_products conn { f with min_rating := none } := by
  have h0 : truthyQ (some 0) = false := by simp [truthyQ]
  have hmin : listing_pred { f with min_price := some 0 } =
      listing_pred { f with min_price := none } := by
    funext p
    simp [listing_pred, h0, truthyQ]
  have hmax : listing_pred { f with max_price := some 0 } =
      listing_pred { f with max_price := none } := by
    funext p
    simp [listing_pred, h0, truthyQ]
  have hrat : listing_pred { f with min_rating := some 0 } =
      listing_pred { f with min_rating := none } := by
    funext p
    simp [listing_pred, h0, truthyQ]
  refine ⟨?_, ?_, ?_⟩ <;>
    cases conn with
    | error e => rfl
    | ok cat => simp only [get_all_products, hmin, hmax, hrat]

/-- C10: the supplementary reads return an empty list or the all-zero
statistics record both on a store failure and on an empty catalog, so the two
situations are indistinguishable to their callers. -/
theorem C10_reads_fail_soft (e : String) (f : ProductSearchFilter) :
    get_all_products (.error e) f = [] ∧
    get_categories (.error e) = [] ∧
    get_database_stats (.error e) = zeroStats ∧
    get_all_products (.ok emptyCatalog) f = [] ∧
    get_categories (.ok emptyCatalog) = [] ∧
    get_database_stats (.ok emptyCatalog) = zeroStats := by
  refine ⟨rfl, rfl, rfl, ?_, rfl, rfl⟩
  simp [get_all_products, emptyCatalog, List.orderBy]

/-- C2: a strategy invocation that raises is caught at the strategy boundary
and treated as zero candidates, the chain proceeding to the next strategy with
the next index; in particular, when strategy 1 raises and strategy 2 returns a
non-empty candidate list, the overall result is the "found" envelope via
strategy 2 and no exception reaches the caller. -/
theorem C2_strategy_fault_isolated (cat : Catalog) (ident : ObjectIdentification)
    (limit : ℕ) :
    (∀ (s : Strategy) (rest : List Strategy) (i : ℕ) (e : String),
      s cat ident limit = .error e →
      runStrategies cat ident limit (s :: rest) i =
        runStrategies cat ident limit rest (i + 1)) ∧
    (∀ (s₁ s₂ : Strategy) (rest : List Strategy) (e : String)
        (ps : List ProductWithSimilarity),
      s₁ cat ident limit = .error e → s₂ cat ident limit = .ok ps → ps ≠ [] →
      find_similar_products_by_identification (s₁ :: s₂ :: rest) (.ok cat) ident limit =
        foundResult ps 2 ∧
      (find_similar_products_by_identification (s₁ :: s₂ :: rest) (.ok cat) ident
        limit).status = "found") := by
  constructor
  · intro s rest i e hs
    simp [runStrategies, hs]
  · intro s₁ s₂ rest e ps h1 h2 hne
    have hres : runStrategies cat ident limit (s₁ :: s₂ :: rest) 1 = foundResult ps 2 := by
      have hempty : ps.isEmpty = false := by
        simp [List.isEmpty_iff, hne]
      simp [runStrategies, h1, h2, hempty]
    exact ⟨hres, by simp [find_similar_products_by_identification, hres, foundResult]⟩

/-- Witness for C2: a concretely raising first strategy followed by a strategy
returning one candidate yields the "found" envelope via index 2. -/
theorem C2_witness :
    find_similar_products_by_identification [failingStrategy, constStrategy]
      (.ok emptyCatalog) c7ident 20 = foundResult [exCand] 2 ∧
    (find_similar_products_by_identification [failingStrategy, constStrategy]
      (.ok emptyCatalog) c7ident 20).status = "found" :=
  (C2_strategy_fault_isolated emptyCatalog c7ident 20).2 failingStrategy constStrategy
    [] "strategy boom" [exCand] rfl rfl (by simp)

theorem take_length_le (l : List α) (n : ℕ) : (l.take n).length ≤ n := by
  rw [List.length_take]
  exact inf_le_left

theorem exact_search_length_le (cat : Catalog) (ident : ObjectIdentification)
    (limit : ℕ) : (exact_brand_category_search cat ident limit).length ≤ limit := by
  unfold exact_brand_category_search
  split
  · simp
  · simp only [List.length_map, List.length_take]
    exact inf_le_left

theorem category_keyword_search_length_le (cat : Catalog)
    (ident : ObjectIdentification) (limit : ℕ) :
    (category_keyword_search cat ident limit).length ≤ limit := by
  unfold category_keyword_search
  split
  · simp
  · simp only [List.length_map, List.length_take]
    exact inf_le_left

theorem keyword_search_length_le (cat : Catalog) (ident : ObjectIdentification)
    (limit : ℕ) : (keyword_search cat ident limit).length ≤ limit := by
  unfold keyword_search
  split
  · simp
  · simp only [List.length_map, List.length_take]
    exact inf_le_left

theorem tag_rows_length_le (cat : Catalog) (ident : ObjectIdentification)
    (limit : ℕ) : (tag_rows cat ident limit).length ≤ limit := by
  unfold tag_rows
  simp only [List.length_take]
  exact inf_le_left

theorem tag_based_search_length_le (cat : Catalog) (ident : ObjectIdentification)
    (limit : ℕ) : (tag_based_search cat ident limit).length ≤ limit := by
  unfold tag_based_search
  split
  · simp
  · simp only [List.length_map]
    exact tag_rows_length_le cat ident limit

/-- C1: the search tries the four strategies in their fixed order and returns
the "found" envelope of the first strategy yielding one or more candidates
(its full list, capped at the limit, annotated with its 1-based index); every
strategy after the first successful one is irrelevant to the result (replacing
the remainder of the chain by any strategy list leaves the result unchanged),
and when all four strategies yield zero candidates the result is the
"not_found" envelope with an empty list and total_found = 0. -/
theorem C1_chain_first_success (cat : Catalog) (ident : ObjectIdentification)
    (limit : ℕ) :
    (∀ (i : ℕ) (ps : List ProductWithSimilarity),
      first_successful_strategy cat ident limit = some (i, ps) →
      product_search (.ok cat) ident limit = foundResult ps i ∧
      (product_search (.ok cat) ident limit).status = "found" ∧
      (product_search (.ok cat) ident limit).similar_products = ps ∧
      (product_search (.ok cat) ident limit).total_found = ps.length ∧
      (product_search (.ok cat) ident limit).strategy_used = some i ∧
      ps ≠ [] ∧ ps.length ≤ limit ∧
      (∀ rest : List Strategy,
        find_similar_products_by_identification (search_strategies.take i ++ rest)
          (.ok cat) ident limit = product_search (.ok cat) ident limit)) ∧
    (first_successful_strategy cat ident limit = none →
      product_search (.ok cat) ident limit = notFoundResult ∧
      (product_search (.ok cat) ident limit).status = "not_found" ∧
      (product_search (.ok cat) ident limit).similar_products = [] ∧
      (product_search (.ok cat) ident limit).total_found = 0) := by
  have key :
      (∃ k ps', first_successful_strategy cat ident limit = some (k, ps') ∧
        product_search (.ok cat) ident limit = foundResult ps' k ∧
        ps' ≠ [] ∧ ps'.length ≤ limit ∧
        (∀ rest : List Strategy,
          find_similar_products_by_identification (search_strategies.take k ++ rest)
            (.ok cat) ident limit = foundResult ps' k)) ∨
      (first_successful_strategy cat ident limit = none ∧
        product_search (.ok cat) ident limit = notFoundResult) := by
    cases h1 : (exact_brand_category_search cat ident limit).isEmpty with
    | false =>
      refine Or.inl ⟨1, exact_brand_category_search cat ident limit, ?_, ?_, ?_, ?_, ?_⟩
      · simp [first_successful_strategy, strategy_outputs, firstHit, h1]
      · simp [product_search, find_similar_products_by_identification,
          search_strategies, runStrategies, liftStrategy, h1]
      · simpa [List.isEmpty_iff] using h1
      · exact exact_search_length_le cat ident limit
      · intro rest
        simp [find_similar_products_by_identification, search_strategies,
          runStrategies, liftStrategy, h1]
    | true =>
      cases h2 : (category_keyword_search cat ident limit).isEmpty with
      | false =>
        refine Or.inl ⟨2, category_keyword_search cat ident limit, ?_, ?_, ?_, ?_, ?_⟩
        · simp [first_successful_strategy, strategy_outputs, firstHit, h1, h2]
        · simp [product_search, find_similar_products_by_identification,
            search_strategies, runStrategies, liftStrategy, h1, h2]
        · simpa [List.isEmpty_iff] using h2
        · exact category_keyword_search_length_le cat ident limit
        · intro rest
          simp [find_similar_products_by_identification, search_strategies,
            runStrategies, liftStrategy, h1, h2]
      | true =>
        cases h3 : (keyword_search cat ident limit).isEmpty with
        | false =>
          refine Or.inl ⟨3, keyword_search cat ident limit, ?_, ?_, ?_, ?_, ?_⟩
          · simp [first_successful_strategy, strategy_outputs, firstHit, h1, h2, h3]
          · simp [product_search, find_similar_products_by_identification,
              search_strategies, runStrategies, liftStrategy, h1, h2, h3]
          · simpa [List.isEmpty_iff] using h3
          · exact keyword_search_length_le cat ident limit
          · intro rest
            simp [find_similar_products_by_identification, search_strategies,
              runStrategies, liftStrategy, h1, h2, h3]
        | true =>
          cases h4 : (tag_based_search cat ident limit).isEmpty with
          | false =>
            refine Or.inl ⟨4, tag_based_search cat ident limit, ?_, ?_, ?_, ?_, ?_⟩
            · simp [first_successful_strategy, strategy_outputs, firstHit,
                h1, h2, h3, h4]
            · simp [product_search, find_similar_products_by_identification,
                search_strategies, runStrategies, liftStrategy, h1, h2, h3, h4]
            · simpa [List.isEmpty_iff] using h4
            · exact tag_based_search_length_le cat ident limit
            · intro rest
              simp [find_similar_products_by_identification, search_strategies,
                runStrategies, liftStrategy, h1, h2, h3, h4]
          | true =>
            refine Or.inr ⟨?_, ?_⟩
            · simp [first_successful_strategy, strategy_outputs, firstHit,
                h1, h2, h3, h4]
            · simp [product_search, find_similar_products_by_identification,
                search_strategies, runStrategies, liftStrategy, h1, h2, h3, h4]
  constructor
  · intro i ps h
    rcases key with ⟨k, ps', hfss, hres, hne, hlen, hinv⟩ | ⟨hfss, _⟩
    · rw [hfss] at h
      have hk : k = i ∧ ps' = ps := by simpa using h
      obtain ⟨rfl, rfl⟩ := hk
      refine ⟨hres, ?_, ?_, ?_, ?_, hne, hlen, ?_⟩
      · rw [hres]
        rfl
      · rw [hres]
        rfl
      · rw [hres]
        rfl
      · rw [hres]
        rfl
      · intro rest
        rw [hres]
        exact hinv rest
    · rw [hfss] at h
      cases h
  · intro h
    rcases key with ⟨k, ps', hfss, _⟩ | ⟨_, hres⟩
    · rw [hfss] at h
      cases h
    · exact ⟨hres, by rw [hres]; rfl, by rw [hres]; rfl, by rw [hres]; rfl⟩

/-- Witness for C1 on the example catalog: strategy 1 succeeds with index 1. -/
theorem C1_witness :
    (product_search (.ok exCatalog) exIdent 20).status = "found" ∧
    (product_search (.ok exCatalog) exIdent 20).strategy_used = some 1 ∧
    (product_search (.ok exCatalog) exIdent 20).similar_products = [exCand] := by
  have h := (C1_chain_first_success exCatalog exIdent 20).1 1 [exCand] rfl
  exact ⟨h.2.1, h.2.2.2.2.1, h.2.2.1⟩

/-- C4, counterexample to the claim as stated: on the example catalog and
identification the search does return "found" with one candidate scored 0.95,
but its match_reason is exactly "Exact brand (acme) and category match", which
does not mention "Electronics" (not even case-insensitively) and mentions the
brand only in the identification's casing "acme", not as the literal "Acme". -/
theorem C4_counterexample :
    product_search (.ok exCatalog) exIdent 20 = foundResult [exCand] 1 ∧
    exCand.similarity_score = 0.95 ∧
    exCand.match_reason = "Exact brand (acme) and category match" ∧
    sqlContains (sqlLower exCand.match_reason) (sqlLower "Electronics") = false ∧
    sqlContains exCand.match_reason "Acme" = false ∧
    sqlContains (sqlLower exCand.match_reason) (sqlLower "Acme") = true := by
  refine ⟨rfl, rfl, rfl, ?_, ?_, ?_⟩ <;> decide

/-- C4 as amended: on the example catalog the search returns "found" with
exactly one candidate, scored 0.95, whose match_reason is exactly
"Exact brand (acme) and category match" — it mentions the brand as given in
the identification (matching "Acme" only case-insensitively) and does not
mention the category "Electronics" at all. -/
theorem C4_example_end_to_end :
    product_search (.ok exCatalog) exIdent 20 = foundResult [exCand] 1 ∧
    (product_search (.ok exCatalog) exIdent 20).status = "found" ∧
    (product_search (.ok exCatalog) exIdent 20).total_found = 1 ∧
    (product_search (.ok exCatalog) exIdent 20).similar_products.length = 1 ∧
    exCand.similarity_score = 0.95 ∧
    exCand.match_reason = "Exact brand (acme) and category match" :=
  ⟨rfl, rfl, rfl, rfl, rfl, rfl⟩

theorem sqlLower_eq_empty_iff {s : String} : sqlLower s = "" ↔ s = "" := by
  cases s with
  | mk d =>
    constructor
    · intro h
      have hd : d.map Char.toLower = [] := congrArg String.data h
      have : d = [] := List.map_eq_nil_iff.mp hd
      rw [this]
    · intro h
      rw [h]
      rfl

theorem mem_category_keyword_search {cat : Catalog} {ident : ObjectIdentification}
    {limit : ℕ} {c : ProductWithSimilarity}
    (hc : c ∈ category_keyword_search cat ident limit) :
    ∃ p, p ∈ cat.products ∧ c.toProduct = p ∧
      c.similarity_score = min (0.8 + brandBonus ident p) 1 ∧
      c.match_reason = "Category and keyword match" := by
  unfold category_keyword_search at hc
  split at hc
  · cases hc
  · simp only [List.mem_map] at hc
    obtain ⟨p, hp, rfl⟩ := hc
    refine ⟨p, ?_, rfl, rfl, rfl⟩
    have h1 := List.mem_of_mem_take hp
    rw [List.mem_orderBy] at h1
    exact (List.mem_filter.mp h1).1

/-- C5: every candidate of strategy 2 is scored `min (0.8 + bonus) 1` with
bonus exactly 0.2 when the product's brand equals the identification's brand
case-insensitively and exactly 0 otherwise (in particular when the
identification carries no brand), so every strategy 2 score lies in
[0.8, 1]. The hypothesis that catalog brands are non-empty reflects the
pydantic constraint `min_length=1` on `Product.brand`. -/
theorem C5_strategy2_scoring (cat : Catalog) (ident : ObjectIdentification)
    (limit : ℕ) (hbrands : ∀ p ∈ cat.products, p.brand ≠ "")
    (c : ProductWithSimilarity)
    (hc : c ∈ category_keyword_search cat ident limit) :
    (∀ b, ident.brand = some b → sqlLower c.brand = sqlLower b →
      c.similarity_score = min (0.8 + 0.2) 1) ∧
    ((∀ b, ident.brand = some b → sqlLower c.brand ≠ sqlLower b) →
      c.similarity_score = min (0.8 + 0) 1) ∧
    0.8 ≤ c.similarity_score ∧ c.similarity_score ≤ 1 := by
  obtain ⟨p, hmem, hprod, hscore, -⟩ := mem_category_keyword_search hc
  have hbrand : c.brand = p.brand := by
    show c.toProduct.brand = p.brand
    rw [hprod]
  refine ⟨?_, ?_, ?_, ?_⟩
  · intro b hb heq
    have hcond : sqlLower p.brand = sqlLower (ident.brand.getD "") := by
      rw [hb]
      rw [hbrand] at heq
      exact heq
    rw [hscore]
    unfold brandBonus
    rw [if_pos hcond]
  · intro hall
    have hcond : ¬ sqlLower p.brand = sqlLower (ident.brand.getD "") := by
      cases hib : ident.brand with
      | none =>
        intro hEq
        have : sqlLower p.brand = "" := by
          simpa [sqlLower] using hEq
        exact hbrands p hmem (sqlLower_eq_empty_iff.mp this)
      | some b =>
        have := hall b hib
        rw [hbrand] at this
        simpa using this
    rw [hscore]
    unfold brandBonus
    rw [if_neg hcond]
  · rw [hscore]
    unfold brandBonus
    split <;> norm_num
  · rw [hscore]
    exact min_le_right _ _

/-- Witness for C5 on a concrete matching catalog and identification. -/
theorem C5_witness :
    c5cand.similarity_score = min (0.8 + 0.2) 1 ∧
    0.8 ≤ c5cand.similarity_score ∧ c5cand.similarity_score ≤ 1 := by
  have hbrands : ∀ p ∈ c5cat.products, p.brand ≠ "" := by
    intro p hp
    have : p = c5prod := by simpa [c5cat] using hp
    rw [this]
    decide
  have hsingle : category_keyword_search c5cat c5ident 20 = [c5cand] := rfl
  have hc : c5cand ∈ category_keyword_search c5cat c5ident 20 := by
    rw [hsingle]
    exact List.mem_singleton.mpr rfl
  have h := C5_strategy2_scoring c5cat c5ident 20 hbrands c5cand hc
  exact ⟨h.1 "acme" rfl (by decide), h.2.2.1, h.2.2.2⟩

theorem foldl_max_init_le (l : List ℕ) (a : ℕ) : a ≤ l.foldl Nat.max a := by
  induction l generalizing a with
  | nil => exact le_refl a
  | cons b bs ih =>
    rw [List.foldl_cons]
    exact le_trans (Nat.le_max_left a b) (ih (Nat.max a b))

theorem mem_le_foldl_max {l : List ℕ} {x : ℕ} (hx : x ∈ l) :
    ∀ a, x ≤ l.foldl Nat.max a := by
  induction l with
  | nil => cases hx
  | cons b bs ih =>
    intro a
    rw [List.foldl_cons]
    rcases List.mem_cons.mp hx with rfl | hx'
    · exact le_trans (Nat.le_max_right a x) (foldl_max_init_le bs _)
    · exact ih hx' _

theorem mem_tag_rows {cat : Catalog} {ident : ObjectIdentification} {limit : ℕ}
    {p : Product} (hp : p ∈ tag_rows cat ident limit) :
    p ∈ cat.products ∧ tag_matches cat ident p ≠ 0 ∧ p.in_stock = true := by
  unfold tag_rows at hp
  have h1 := List.mem_of_mem_take hp
  rw [List.mem_orderBy] at h1
  obtain ⟨hmem, hcond⟩ := List.mem_filter.mp h1
  simp only [Bool.and_eq_true, bne_iff_ne, ne_eq] at hcond
  exact ⟨hmem, hcond.1, hcond.2⟩

theorem tag_matches_le_max_tags {cat : Catalog} {ident : ObjectIdentification}
    {limit : ℕ} {p : Product} (hp : p ∈ tag_rows cat ident limit) :
    tag_matches cat ident p ≤ max_tags cat ident limit := by
  unfold max_tags
  cases hrows : tag_rows cat ident limit with
  | nil =>
    rw [hrows] at hp
    cases hp
  | cons r rs =>
    rw [hrows] at hp
    rcases List.mem_cons.mp hp with rfl | hp'
    · exact foldl_max_init_le _ _
    · exact mem_le_foldl_max (List.mem_map_of_mem _ hp') _

theorem one_le_max_tags (cat : Catalog) (ident : ObjectIdentification)
    (limit : ℕ) : 1 ≤ max_tags cat ident limit := by
  unfold max_tags
  cases hrows : tag_rows cat ident limit with
  | nil => exact le_refl 1
  | cons r rs =>
    have hr : r ∈ tag_rows cat ident limit := by
      rw [hrows]
      exact List.mem_cons_self r rs
    have h1 : tag_matches cat ident r ≠ 0 := (mem_tag_rows hr).2.1
    exact le_trans (Nat.one_le_iff_ne_zero.mpr h1) (foldl_max_init_le _ _)

theorem mem_tag_based_search {cat : Catalog} {ident : ObjectIdentification}
    {limit : ℕ} {c : ProductWithSimilarity}
    (hc : c ∈ tag_based_search cat ident limit) :
    ∃ p, p ∈ tag_rows cat ident limit ∧ c.toProduct = p ∧
      c.similarity_score = max 0.2 (((tag_matches cat ident p : ℚ) /
        (max_tags cat ident limit : ℚ)) * 0.6) := by
  unfold tag_based_search at hc
  split at hc
  · cases hc
  · simp only [List.mem_map] at hc
    obtain ⟨p, hp, rfl⟩ := hc
    exact ⟨p, hp, rfl, rfl⟩

/-- C6: every candidate of strategy 4 is scored
`max 0.2 ((tag_matches / max_tags) * 0.6)` where `max_tags` is the maximum
match count among the rows fetched by that invocation (at least 1 since every
fetched row has a positive match count and an empty row set yields no
candidates), so every strategy 4 score lies in [0.2, 0.6]; and when every
fetched row's match count equals `max_tags`, every candidate is scored 0.6. -/
theorem C6_strategy4_scoring (cat : Catalog) (ident : ObjectIdentification)
    (limit : ℕ) (c : ProductWithSimilarity)
    (hc : c ∈ tag_based_search cat ident limit) :
    c.similarity_score =
      max 0.2 (((tag_matches cat ident c.toProduct : ℚ) /
        (max_tags cat ident limit : ℚ)) * 0.6) ∧
    1 ≤ max_tags cat ident limit ∧
    tag_matches cat ident c.toProduct ≤ max_tags cat ident limit ∧
    0.2 ≤ c.similarity_score ∧ c.similarity_score ≤ 0.6 ∧
    ((∀ p ∈ tag_rows cat ident limit,
        tag_matches cat ident p = max_tags cat ident limit) →
      c.similarity_score = 0.6) := by
  obtain ⟨p, hp, hprod, hscore⟩ := mem_tag_based_search hc
  have hM1 : 1 ≤ max_tags cat ident limit := one_le_max_tags cat ident limit
  have hMpos : (0 : ℚ) < (max_tags cat ident limit : ℚ) := by
    exact_mod_cast Nat.lt_of_lt_of_le Nat.zero_lt_one hM1
  have htm : tag_matches cat ident p ≤ max_tags cat ident limit :=
    tag_matches_le_max_tags hp
  have hfrac_le : ((tag_matches cat ident p : ℚ) /
      (max_tags cat ident limit : ℚ)) ≤ 1 := by
    rw [div_le_one hMpos]
    exact_mod_cast htm
  refine ⟨?_, hM1, ?_, ?_, ?_, ?_⟩
  · rw [hprod]
    exact hscore
  · rw [hprod]
    exact htm
  · rw [hscore]
    exact le_max_left _ _
  · rw [hscore]
    apply max_le
    · norm_num
    · calc ((tag_matches cat ident p : ℚ) / (max_tags cat ident limit : ℚ)) * 0.6
          ≤ 1 * 0.6 := mul_le_mul_of_nonneg_right hfrac_le (by norm_num)
        _ = 0.6 := one_mul _
  · intro hall
    have heqM := hall p hp
    rw [hscore, heqM, div_self (ne_of_gt hMpos), one_mul]
    exact max_eq_right (by norm_num)

/-- Witness for C6 on a concrete catalog with one tagged product. -/
theorem C6_witness :
    c6cand.similarity_score =
      max 0.2 (((tag_matches c6cat c6ident c6cand.toProduct : ℚ) /
        (max_tags c6cat c6ident 5 : ℚ)) * 0.6) ∧
    0.2 ≤ c6cand.similarity_score ∧ c6cand.similarity_score ≤ 0.6 := by
  have hsingle : tag_based_search c6cat c6ident 5 = [c6cand] := rfl
  have hc : c6cand ∈ tag_based_search c6cat c6ident 5 := by
    rw [hsingle]
    exact List.mem_singleton.mpr rfl
  have h := C6_strategy4_scoring c6cat c6ident 5 c6cand hc
  exact ⟨h.1, h.2.2.2.1, h.2.2.2.2.1⟩

theorem optQDescKey_lt_iff {a b : Option ℚ} :
    optQDescKey a < optQDescKey b ↔ OptQDescBefore a b := by
  cases a <;> cases b <;>
    simp [optQDescKey, OptQDescBefore, Prod.Lex.lt_iff, neg_lt_neg_iff]

theorem optQDescKey_inj {a b : Option ℚ} :
    optQDescKey a = optQDescKey b ↔ a = b := by
  cases a <;> cases b <;> simp [optQDescKey, toLex_inj, Prod.ext_iff]

theorem optNDescKey_lt_iff {a b : Option ℕ} :
    optNDescKey a < optNDescKey b ↔ OptNDescBefore a b := by
  cases a <;> cases b <;>
    simp [optNDescKey, OptNDescBefore, Prod.Lex.lt_iff, neg_lt_neg_iff]

theorem optNDescKey_inj {a b : Option ℕ} :
    optNDescKey a = optNDescKey b ↔ a = b := by
  cases a <;> cases b <;> simp [optNDescKey, toLex_inj, Prod.ext_iff]

theorem ratingReviewKey_lt_iff {p q : Product} :
    ratingReviewKey p < ratingReviewKey q ↔
      (OptQDescBefore p.rating q.rating ∨
        (p.rating = q.rating ∧ OptNDescBefore p.review_count q.review_count)) := by
  unfold ratingReviewKey
  rw [Prod.Lex.lt_iff]
  simp only [optQDescKey_lt_iff, optQDescKey_inj, optNDescKey_lt_iff]

theorem ratingReviewKey_inj {p q : Product} :
    ratingReviewKey p = ratingReviewKey q ↔
      (p.rating = q.rating ∧ p.review_count = q.review_count) := by
  unfold ratingReviewKey
  simp [toLex_inj, Prod.ext_iff, optQDescKey_inj, optNDescKey_inj]

theorem listingKey_le_iff {p q : Product} :
    listingKey p ≤ listingKey q ↔ ListingOrder p q := by
  unfold listingKey ListingOrder
  rw [Prod.Lex.le_iff]
  simp only [ratingReviewKey_lt_iff, ratingReviewKey_inj]
  tauto

theorem listingLe_total (p q : Product) :
    listingLe p q = true ∨ listingLe q p = true := by
  unfold listingLe
  rcases le_total (listingKey p) (listingKey q) with h | h
  · exact Or.inl (decide_eq_true h)
  · exact Or.inr (decide_eq_true h)

theorem listingLe_trans (p q r : Product) (h1 : listingLe p q = true)
    (h2 : listingLe q r = true) : listingLe p r = true := by
  unfold listingLe at h1 h2 ⊢
  exact decide_eq_true (le_trans (of_decide_eq_true h1) (of_decide_eq_true h2))

theorem mem_get_all_products {cat : Catalog} {f : ProductSearchFilter}
    {p : Product} (hp : p ∈ get_all_products (.ok cat) f) :
    p ∈ cat.products ∧ listing_pred f p = true := by
  unfold get_all_products at hp
  have h1 := List.mem_of_mem_take hp
  have h2 := List.mem_of_mem_drop h1
  rw [List.mem_orderBy] at h2
  exact ⟨(List.mem_filter.mp h2).1, (List.mem_filter.mp h2).2⟩

theorem listing_pred_spec {f : ProductSearchFilter} {p : Product}
    (h : listing_pred f p = true) :
    (∀ c, f.category = some c → c ≠ "" → sqlLower p.category = sqlLower c) ∧
    (∀ b, f.brand = some b → b ≠ "" → sqlLower p.brand = sqlLower b) ∧
    (∀ m, f.min_price = some m → m ≠ 0 → m ≤ p.price) ∧
    (∀ m, f.max_price = some m → m ≠ 0 → p.price ≤ m) ∧
    (∀ m, f.min_rating = some m → m ≠ 0 → ∃ r, p.rating = some r ∧ m ≤ r) ∧
    (f.in_stock_only = true → p.in_stock = true) := by
  simp only [listing_pred, Bool.and_eq_true] at h
  obtain ⟨⟨⟨⟨⟨hcat, hbr⟩, hminp⟩, hmaxp⟩, hminr⟩, hstock⟩ := h
  refine ⟨?_, ?_, ?_, ?_, ?_, ?_⟩
  · intro c hcx hcne
    rw [hcx] at hcat
    have hE : c.isEmpty = false := by
      cases hE : c.isEmpty with
      | false => rfl
      | true => exact absurd ((String.isEmpty_iff c).mp hE) hcne
    have htr : truthyOpt (some c) = true := by
      simp [truthyOpt, hE]
    rw [htr] at hcat
    simpa using hcat
  · intro b hbx hbne
    rw [hbx] at hbr
    have hE : b.isEmpty = false := by
      cases hE : b.isEmpty with
      | false => rfl
      | true => exact absurd ((String.isEmpty_iff b).mp hE) hbne
    have htr : truthyOpt (some b) = true := by
      simp [truthyOpt, hE]
    rw [htr] at hbr
    simpa using hbr
  · intro m hmx hmne
    rw [hmx] at hminp
    have htr : truthyQ (some m) = true := by simp [truthyQ, hmne]
    rw [htr] at hminp
    simpa using hminp
  · intro m hmx hmne
    rw [hmx] at hmaxp
    have htr : truthyQ (some m) = true := by simp [truthyQ, hmne]
    rw [htr] at hmaxp
    simpa using hmaxp
  · intro m hmx hmne
    rw [hmx] at hminr
    have htr : truthyQ (some m) = true := by simp [truthyQ, hmne]
    rw [htr] at hminr
    cases hrat : p.rating with
    | none =>
      rw [hrat] at hminr
      simp at hminr
    | some r =>
      rw [hrat] at hminr
      refine ⟨r, rfl, ?_⟩
      simpa using hminr
  · intro hso
    rw [hso] at hstock
    simpa using hstock

/-- C8, counterexample to the claim as stated: with `max_price` provided as 0
the listing does not apply the price-at-most constraint at all — the
zero-value filter is skipped by the truthiness guard — so a product priced 5
is returned even though 5 ≤ 0 fails. -/
theorem C8_counterexample :
    get_all_products (.ok c8cat) cexFilter = [cexProduct] ∧
    cexFilter.max_price = some 0 ∧
    ¬ cexProduct.price ≤ (0 : ℚ) := by
  refine ⟨rfl, rfl, ?_⟩
  show ¬ (5 : ℚ) ≤ 0
  norm_num

/-- C8 as amended: the listing applies its filter as a conjunction of the
provided constraints whose values are truthy (a zero numeric bound or an empty
category/brand string is treated as absent, per the C9 behaviour):
case-insensitive category and brand equality, price at least min_price, price
at most max_price, rating at least min_rating (a NULL rating failing the
constraint), in-stock only; rows are ordered by rating descending (NULL last),
then review count descending (NULL last), then price ascending, and paginated
with OFFSET `offset` and LIMIT `limit`, `limit` being constrained to [1, 100]
with default 20 and `offset` to at least 0 with default 0 by the filter model. -/
theorem C8_listing_filter_order (cat : Catalog) (f : ProductSearchFilter)
    (hf : f.Valid) :
    (∀ p ∈ get_all_products (.ok cat) f,
      p ∈ cat.products ∧
      (∀ c, f.category = some c → c ≠ "" → sqlLower p.category = sqlLower c) ∧
      (∀ b, f.brand = some b → b ≠ "" → sqlLower p.brand = sqlLower b) ∧
      (∀ m, f.min_price = some m → m ≠ 0 → m ≤ p.price) ∧
      (∀ m, f.max_price = some m → m ≠ 0 → p.price ≤ m) ∧
      (∀ m, f.min_rating = some m → m ≠ 0 → ∃ r, p.rating = some r ∧ m ≤ r) ∧
      (f.in_stock_only = true → p.in_stock = true)) ∧
    (get_all_products (.ok cat) f).Pairwise ListingOrder ∧
    (get_all_products (.ok cat) f).length ≤ f.limit ∧
    1 ≤ f.limit ∧ f.limit ≤ 100 ∧
    ({} : ProductSearchFilter).limit = 20 ∧
    ({} : ProductSearchFilter).offset = 0 := by
  have hdef : get_all_products (.ok cat) f =
      (((cat.products.filter (listing_pred f)).orderBy listingLe).drop
        f.offset).take f.limit := rfl
  refine ⟨?_, ?_, ?_, hf.1, hf.2, rfl, rfl⟩
  · intro p hp
    obtain ⟨hmem, hpred⟩ := mem_get_all_products hp
    have hs := listing_pred_spec hpred
    exact ⟨hmem, hs.1, hs.2.1, hs.2.2.1, hs.2.2.2.1, hs.2.2.2.2.1, hs.2.2.2.2.2⟩
  · have hsorted :=
      List.pairwise_orderBy listingLe_total listingLe_trans
        (cat.products.filter (listing_pred f))
    have hsub :
        List.Sublist
          ((((cat.products.filter (listing_pred f)).orderBy listingLe).drop
            f.offset).take f.limit)
          ((cat.products.filter (listing_pred f)).orderBy listingLe) :=
      List.Sublist.trans (List.take_sublist _ _) (List.drop_sublist _ _)
    have hres := List.Pairwise.sublist hsub hsorted
    rw [hdef]
    refine hres.imp ?_
    intro a b hab
    exact listingKey_le_iff.mp (of_decide_eq_true hab)
  · rw [hdef]
    exact take_length_le _ _

/-- Witness for C8 on a concrete catalog and an honest non-zero price filter. -/
theorem C8_witness :
    cexProduct ∈ get_all_products (.ok c8cat) c8filter ∧
    (∀ m, c8filter.min_price = some m → m ≠ 0 → m ≤ cexProduct.price) ∧
    (get_all_products (.ok c8cat) c8filter).length ≤ c8filter.limit ∧
    (get_all_products (.ok c8cat) c8filter).Pairwise ListingOrder := by
  have hmem : cexProduct ∈ get_all_products (.ok c8cat) c8filter := by
    have hsingle : get_all_products (.ok c8cat) c8filter = [cexProduct] := rfl
    rw [hsingle]
    exact List.mem_singleton.mpr rfl
  have h := C8_listing_filter_order c8cat c8filter ⟨by norm_num [c8filter], by norm_num [c8filter]⟩
  exact ⟨hmem, (h.1 cexProduct hmem).2.2.2.1, h.2.2.1, h.2.1⟩
